import Mathlib

/-!
Shallow embedding of the knowledge-gap-agent backend (`backend/app/agents/`):
the Gap Detector, FAQ Generator and Content Analyzer agents and the
orchestrator that coordinates them.

Modelling conventions:
* Python floats are modelled as `ℚ`, Python ints as `ℤ` (or `ℕ` for lengths).
* A record (Python `dict`) read with `d.get(key, default)` is modelled as a
  structure whose optional fields are `Option` values read with `Option.getD`;
  fields the code interpolates directly are plain `String`s.
* An optional list parameter (`List[...] = None`) is modelled as a plain list,
  with `[]` standing for `None`: every use in the code is a truthiness test or
  a guarded `len`, on which `None` and `[]` behave identically.
* Each agent call sends a prompt built from a variable mapping and parses the
  completion-service reply as JSON; the service is modelled as an oracle
  function from the variable mapping to the parsed reply (the parsed-mapping
  path of the code, where the parser yields a JSON object).  Constant prompt
  parts (system text, format instructions) carry no information and are
  omitted from the mapping.
* `uuid` report ids and `datetime` timestamps are omitted; the elapsed
  wall-clock duration is passed in as a parameter `elapsed`.
-/

namespace KGA

/-- Python's `s or default` on strings: the default replaces an empty string. -/
def orDefault (s d : String) : String :=
if s = "" then d else s

/-- A search-query record; `query` is interpolated directly, `count` is read
with `q.get('count', 1)`. -/
structure SearchQuery where
  query : String
  count : Option ℕ
deriving DecidableEq

/-- A support-ticket record, read with `t.get('subject', 'No subject')`,
`t.get('description', '')` and `t.get('resolution', 'Not provided')`. -/
structure Ticket where
  subject : Option String
  description : Option String
  resolution : Option String
  category : Option String
deriving DecidableEq

/-- A user-feedback record; the `feedback` field is interpolated directly. -/
structure Feedback where
  feedback : String
deriving DecidableEq

/-- A content record, read with `c.get('id', '')`, `c.get('title', ...)`,
`c.get('content', '')`, `c.get('last_updated', 'Unknown')` and
`c.get('category', 'Unknown')`. -/
structure ContentRecord where
  id : Option String
  title : Option String
  content : Option String
  last_updated : Option String
  category : Option String
deriving DecidableEq

/-- `DetectedGap` (gap_detector.py): a detected knowledge gap. -/
structure DetectedGap where
  title : String
  description : String
  topic : String
  priority : String
  evidence : List String
  search_queries : List String
  impact_score : ℚ
  suggested_content : String
deriving DecidableEq

/-- `GapDetectionResult` (gap_detector.py).  The count fields come from the
parsed JSON object (`int`, hence `ℤ`) before the agent overwrites them. -/
structure GapDetectionResult where
  gaps : List DetectedGap
  analysis_summary : String
  total_queries_analyzed : ℤ
  total_tickets_analyzed : ℤ
  coverage_score : ℚ
deriving DecidableEq

/-- The variable mapping filled into the gap-detection prompt template. -/
structure GapPromptInput where
  search_queries : String
  support_tickets : String
  user_feedback : String
  existing_content : String
deriving DecidableEq

/-- One line of the shaped search-query text:
`f"- \"{q.get('query', q)}\" (count: {q.get('count', 1)})"`. -/
def queryLine (q : SearchQuery) : String :=
"- \"" ++ q.query ++ "\" (count: " ++ toString (q.count.getD 1) ++ ")"

/-- One block of `detect`'s shaped ticket text:
`f"Ticket: {t.get('subject', 'No subject')}\nDescription: {t.get('description', '')[:200]}"`. -/
def detectTicketBlock (t : Ticket) : String :=
"Ticket: " ++ t.subject.getD "No subject" ++ "\nDescription: " ++
  (t.description.getD "").take 200

/-- One line of the shaped user-feedback text: `f"- {f.get('feedback', f)}"`. -/
def feedbackLine (f : Feedback) : String :=
"- " ++ f.feedback

/-- The variable mapping `GapDetectorAgent.detect` sends to the service:
queries truncated to 50, tickets to 30, feedback to 20, existing content to 20,
each falling back to a fixed placeholder when empty. -/
def gapDetectPromptInput (search_queries : List SearchQuery)
    (support_tickets : List Ticket) (user_feedback : List Feedback)
    (existing_content : List String) : GapPromptInput :=
  let queries_text := if search_queries = [] then "" else
    String.intercalate "\n" ((search_queries.take 50).map queryLine)
  let tickets_text := if support_tickets = [] then "" else
    String.intercalate "\n\n" ((support_tickets.take 30).map detectTicketBlock)
  let feedback_text := if user_feedback = [] then "" else
    String.intercalate "\n" ((user_feedback.take 20).map feedbackLine)
  { search_queries := orDefault queries_text "No search data available"
    support_tickets := orDefault tickets_text "No ticket data available"
    user_feedback := orDefault feedback_text "No feedback data available"
    existing_content := if existing_content = [] then "No existing content"
      else String.intercalate "\n" (existing_content.take 20) }

/-- `GapDetectorAgent.detect`: shape the prompt, query the service, then
overwrite both count fields with the true input lengths. -/
def detect (oracle : GapPromptInput → GapDetectionResult)
    (search_queries : List SearchQuery) (support_tickets : List Ticket)
    (user_feedback : List Feedback) (existing_content : List String) :
    GapDetectionResult :=
  let result := oracle
    (gapDetectPromptInput search_queries support_tickets user_feedback
      existing_content)
  { result with
    total_queries_analyzed :=
      if search_queries = [] then 0 else (search_queries.length : ℤ)
    total_tickets_analyzed :=
      if support_tickets = [] then 0 else (support_tickets.length : ℤ) }

/-- The variable mapping `GapDetectorAgent.detect_from_searches` sends:
only the query slot is filled (truncated to 50), the other source slots get
fixed "not provided" placeholders. -/
def gapFromSearchesPromptInput (zero_result_queries : List SearchQuery)
    (existing_content : List String) : GapPromptInput :=
  let queries_text :=
    String.intercalate "\n" ((zero_result_queries.take 50).map queryLine)
  { search_queries := orDefault queries_text "No search data available"
    support_tickets := "No ticket data provided"
    user_feedback := "No feedback data provided"
    existing_content := if existing_content = []
      then "No existing content provided"
      else String.intercalate "\n" (existing_content.take 20) }

/-- `GapDetectorAgent.detect_from_searches`: after parsing, only
`total_queries_analyzed` is overwritten with the true length;
`total_tickets_analyzed` is left as the service stated it. -/
def detect_from_searches (oracle : GapPromptInput → GapDetectionResult)
    (zero_result_queries : List SearchQuery)
    (existing_content : List String) : GapDetectionResult :=
  let result := oracle
    (gapFromSearchesPromptInput zero_result_queries existing_content)
  { result with
    total_queries_analyzed := (zero_result_queries.length : ℤ) }

/-- One block of `detect_from_tickets`'s shaped ticket text (300-char slice,
with a `Category:` line). -/
def fromTicketsBlock (t : Ticket) : String :=
"Ticket: " ++ t.subject.getD "No subject" ++ "\nCategory: " ++
  t.category.getD "Unknown" ++ "\nDescription: " ++
  (t.description.getD "").take 300

/-- `GapDetectorAgent.detect_from_tickets`: after parsing, only
`total_tickets_analyzed` is overwritten with the true length;
`total_queries_analyzed` is left as the service stated it. -/
def detect_from_tickets (oracle : GapPromptInput → GapDetectionResult)
    (support_tickets : List Ticket)
    (existing_content : List String) : GapDetectionResult :=
  let tickets_text :=
    String.intercalate "\n\n" ((support_tickets.take 30).map fromTicketsBlock)
  let result := oracle
    { search_queries := "No search data provided"
      support_tickets := orDefault tickets_text "No ticket data available"
      user_feedback := "No feedback data provided"
      existing_content := if existing_content = []
        then "No existing content provided"
        else String.intercalate "\n" (existing_content.take 20) }
  { result with
    total_tickets_analyzed := (support_tickets.length : ℤ) }

/-- `GeneratedFAQ` (faq_generator.py): a generated FAQ entry. -/
structure GeneratedFAQ where
  question : String
  answer : String
  category : String
  confidence_score : ℚ
  source_summary : String
  related_questions : List String
  tags : List String
deriving DecidableEq

/-- `FAQGenerationResult` (faq_generator.py).  `total_sources_analyzed` comes
from the parsed JSON object before the agent overwrites it. -/
structure FAQGenerationResult where
  faqs : List GeneratedFAQ
  total_sources_analyzed : ℤ
  categories_covered : List String
  generation_summary : String
deriving DecidableEq

/-- The variable mapping filled into the FAQ-generation prompt template. -/
structure FAQPromptInput where
  tickets : String
  queries : String
  documentation : String
deriving DecidableEq

/-- One block of `FAQGeneratorAgent.generate`'s shaped ticket text
(250-char slices of description and resolution). -/
def faqTicketBlock (t : Ticket) : String :=
"Subject: " ++ t.subject.getD "No subject" ++ "\nQuestion: " ++
  (t.description.getD "").take 250 ++ "\nResolution: " ++
  (t.resolution.getD "Not provided").take 250

/-- One block of `FAQGeneratorAgent.generate`'s shaped documentation text
(400-char content slice). -/
def faqDocBlock (d : ContentRecord) : String :=
"Title: " ++ d.title.getD "Untitled" ++ "\nContent: " ++
  (d.content.getD "").take 400

/-- `FAQGeneratorAgent.generate`: shape the prompt (tickets truncated to 30,
queries to 40, documentation to 10), query the service, then overwrite
`total_sources_analyzed` with ticket-count + query-count (documentation
excluded). -/
def generate (oracle : FAQPromptInput → FAQGenerationResult)
    (tickets : List Ticket) (queries : List SearchQuery)
    (documentation : List ContentRecord) : FAQGenerationResult :=
  let tickets_text := if tickets = [] then "" else
    String.intercalate "\n\n" ((tickets.take 30).map faqTicketBlock)
  let queries_text := if queries = [] then "" else
    String.intercalate "\n" ((queries.take 40).map queryLine)
  let docs_text := if documentation = [] then "" else
    String.intercalate "\n\n" ((documentation.take 10).map faqDocBlock)
  let result := oracle
    { tickets := orDefault tickets_text "No ticket data available"
      queries := orDefault queries_text "No query data available"
      documentation := orDefault docs_text "No existing documentation" }
  { result with
    total_sources_analyzed :=
      (if tickets = [] then 0 else (tickets.length : ℤ)) +
      (if queries = [] then 0 else (queries.length : ℤ)) }

/-- `ContentQuality` (content_analyzer.py): a quality assessment. -/
structure ContentQuality where
  content_id : String
  title : String
  completeness_score : ℚ
  clarity_score : ℚ
  accuracy_score : ℚ
  freshness_score : ℚ
  overall_score : ℚ
  issues : List String
  improvements : List String
deriving DecidableEq

/-- The variable mapping filled into the quality-analysis prompt template. -/
structure QualityPromptInput where
  title : String
  content : String
  last_updated : String
  category : String
deriving DecidableEq

/-- `ContentAnalyzerAgent.analyze_quality`: shape the prompt (content sliced
to 3000 chars), query the service, then force `content_id` and `title` from
the input record. -/
def analyze_quality (oracle : QualityPromptInput → ContentQuality)
    (content : ContentRecord) : ContentQuality :=
  let result := oracle
    { title := content.title.getD "Untitled"
      content := (content.content.getD "").take 3000
      last_updated := content.last_updated.getD "Unknown"
      category := content.category.getD "Unknown" }
  { result with
    content_id := content.id.getD ""
    title := content.title.getD "Untitled" }

/-- `CoverageAnalysis` (content_analyzer.py).  All fields come from the
parsed JSON object; the code adds none of its own. -/
structure CoverageAnalysis where
  total_topics : ℤ
  covered_topics : ℤ
  coverage_percentage : ℚ
  well_covered : List String
  partially_covered : List String
  not_covered : List String
  recommendations : List String
deriving DecidableEq

/-- The variable mapping filled into the coverage-analysis prompt template. -/
structure CoveragePromptInput where
  existing_content : String
  expected_topics : String
deriving DecidableEq

/-- One line of the shaped existing-content summary:
`f"- {c.get('title', 'Untitled')}: {c.get('content', '')[:200]}..."`. -/
def coverageLine (c : ContentRecord) : String :=
"- " ++ c.title.getD "Untitled" ++ ": " ++ (c.content.getD "").take 200 ++ "..."

/-- `ContentAnalyzerAgent.analyze_coverage`: shape the prompt (content list
truncated to 30) and return the parsed service reply as-is. -/
def analyze_coverage (oracle : CoveragePromptInput → CoverageAnalysis)
    (content_list : List ContentRecord) (expected_topics : List String) :
    CoverageAnalysis :=
  oracle
    { existing_content :=
        String.intercalate "\n" ((content_list.take 30).map coverageLine)
      expected_topics :=
        String.intercalate "\n" (expected_topics.map (fun t => "- " ++ t)) }

/-- `ContentSuggestionOutput` (content_analyzer.py): a content suggestion. -/
structure ContentSuggestionOutput where
  title : String
  summary : String
  outline : List String
  priority : String
  target_audience : String
  estimated_effort : String
  seo_keywords : List String
  related_content : List String
deriving DecidableEq

/-- The variable mapping filled into the content-suggestion prompt template. -/
structure SuggestPromptInput where
  gap_title : String
  gap_description : String
  existing_content : String
deriving DecidableEq

/-- `ContentAnalyzerAgent.suggest_content`: shape the prompt (related content
truncated to 10) and return the parsed service reply as-is. -/
def suggest_content (oracle : SuggestPromptInput → ContentSuggestionOutput)
    (gap_title : String) (gap_description : String)
    (existing_content : List String) : ContentSuggestionOutput :=
  oracle
    { gap_title := gap_title
      gap_description := gap_description
      existing_content := if existing_content = [] then "No related content"
        else String.intercalate "\n" (existing_content.take 10) }

/-- `AnalysisReport` (orchestrator.py), minus the `uuid` id and the
`datetime` timestamp.  `__init__` sets every field to its zero value. -/
structure AnalysisReport where
  gaps_found : ℕ
  faqs_generated : ℕ
  suggestions_created : ℕ
  coverage_score : ℚ
  gaps : List DetectedGap
  faqs : List GeneratedFAQ
  suggestions : List ContentSuggestionOutput
  summary : String
  duration_seconds : ℚ
deriving DecidableEq

/-- The fresh report produced by `AnalysisReport.__init__`. -/
def AnalysisReport.init : AnalysisReport :=
  { gaps_found := 0
    faqs_generated := 0
    suggestions_created := 0
    coverage_score := 0
    gaps := []
    faqs := []
    suggestions := []
    summary := ""
    duration_seconds := 0 }

/-- The completion service behind the four agents: one oracle per prompt
kind, mapping the shaped variable mapping to the parsed JSON reply. -/
structure Oracles where
  gap : GapPromptInput → GapDetectionResult
  coverage : CoveragePromptInput → CoverageAnalysis
  faq : FAQPromptInput → FAQGenerationResult
  suggest : SuggestPromptInput → ContentSuggestionOutput

/-- Python's `f"{x:.1f}"` on a (rational-modelled) float: one digit after the
decimal point, rounding to nearest. -/
def fmt1 (q : ℚ) : String :=
  let n : ℤ := round (q * 10)
  (if n < 0 then "-" else "") ++
    toString (n.natAbs / 10) ++ "." ++ toString (n.natAbs % 10)

/-- The `parts` list built by `KnowledgeGapOrchestrator._generate_summary`:
starts with the duration and gap-count sentences, then appends one sentence
per nonzero count and a warning naming the number of critical-priority
gaps. -/
def summaryParts (report : AnalysisReport) : List String :=
  let parts := ["Analysis completed in " ++ fmt1 report.duration_seconds ++
      " seconds.",
    "Identified " ++ toString report.gaps_found ++ " knowledge gaps."]
  let parts := if report.faqs_generated ≠ 0 then
    parts ++ ["Generated " ++ toString report.faqs_generated ++ " FAQs."]
    else parts
  let parts := if report.suggestions_created ≠ 0 then
    parts ++ ["Created " ++ toString report.suggestions_created ++
      " content suggestions."] else parts
  let parts := if report.coverage_score ≠ 0 then
    parts ++ ["Current coverage: " ++ fmt1 report.coverage_score ++ "%."]
    else parts
  let critical_gaps := report.gaps.filter (fun g => g.priority = "critical")
  let parts := if critical_gaps ≠ [] then
    parts ++ ["ATTENTION: " ++ toString critical_gaps.length ++
      " critical gaps require immediate attention."] else parts
  parts

/-- `KnowledgeGapOrchestrator._generate_summary` (the `gap_result` parameter
is accepted but unused by the code). -/
def generate_summary (report : AnalysisReport)
    (_gap_result : GapDetectionResult) : String :=
  String.intercalate " " (summaryParts report)

/-- Steps 1-4 of `KnowledgeGapOrchestrator.run_full_analysis`: gap detection
always runs; coverage runs only when both `expected_topics` and
`existing_content` are truthy; FAQ generation only when `generate_faqs` is
set and `support_tickets` is truthy; suggestions (first 5 gaps, input order)
only when `generate_suggestions` is set. -/
def reportAfterStages (O : Oracles) (search_queries : List SearchQuery)
    (support_tickets : List Ticket) (user_feedback : List Feedback)
    (existing_content : List ContentRecord) (expected_topics : List String)
    (generate_faqs : Bool) (generate_suggestions : Bool) : AnalysisReport :=
  let content_titles := existing_content.map (fun c => c.title.getD "")
  let gap_result :=
    detect O.gap search_queries support_tickets user_feedback content_titles
  let report0 := { AnalysisReport.init with
    gaps := gap_result.gaps
    gaps_found := gap_result.gaps.length }
  let report1 := if expected_topics ≠ [] ∧ existing_content ≠ [] then
    { report0 with coverage_score :=
        (analyze_coverage O.coverage existing_content
          expected_topics).coverage_percentage }
    else report0
  let report2 := if generate_faqs ∧ support_tickets ≠ [] then
    let faq_result := generate O.faq support_tickets search_queries
      existing_content
    { report1 with
      faqs := faq_result.faqs
      faqs_generated := faq_result.faqs.length }
    else report1
  if generate_suggestions then
    let suggestions := (gap_result.gaps.take 5).map (fun gap =>
      suggest_content O.suggest gap.title gap.description
        (content_titles.take 10))
    { report2 with
      suggestions := suggestions
      suggestions_created := suggestions.length }
  else report2

/-- `KnowledgeGapOrchestrator.run_full_analysis`: run the stages, compose the
summary from the report as it stands (its `duration_seconds` still the
initial 0.0), and only then store the elapsed wall-clock time. -/
def run_full_analysis (O : Oracles) (search_queries : List SearchQuery)
    (support_tickets : List Ticket) (user_feedback : List Feedback)
    (existing_content : List ContentRecord) (expected_topics : List String)
    (generate_faqs : Bool) (generate_suggestions : Bool) (elapsed : ℚ) :
    AnalysisReport :=
  let content_titles := existing_content.map (fun c => c.title.getD "")
  let gap_result :=
    detect O.gap search_queries support_tickets user_feedback content_titles
  let report := reportAfterStages O search_queries support_tickets
    user_feedback existing_content expected_topics generate_faqs
    generate_suggestions
  let report := { report with summary := generate_summary report gap_result }
  { report with duration_seconds := elapsed }

/-! ### Concrete sample data, used to instantiate the theorems below. -/

/-- A sample detected gap with `critical` priority. -/
def sampleGap : DetectedGap :=
  { title := "Password reset"
    description := "No article covers self-service password reset"
    topic := "accounts"
    priority := "critical"
    evidence := ["34 zero-result searches"]
    search_queries := ["reset password"]
    impact_score := 9/10
    suggested_content := "Write a reset walkthrough" }

/-- A sample detected gap with `low` priority. -/
def sampleGapLow : DetectedGap :=
  { sampleGap with
    title := "Export formats"
    priority := "low"
    impact_score := 1/5 }

/-- A gap whose `impact_score` as stated by the service is 1.5, outside
the documented [0,1] range. -/
def outOfRangeGap : DetectedGap :=
  { sampleGap with impact_score := 3/2 }

/-- A service reply for the gap detector whose JSON body carries an
out-of-range `impact_score` of 1.5. -/
def outOfRangeGapReply : GapDetectionResult :=
  { gaps := [outOfRangeGap]
    analysis_summary := "one gap"
    total_queries_analyzed := 0
    total_tickets_analyzed := 0
    coverage_score := 0 }

/-- A service reply for the gap detector whose JSON body states
`total_tickets_analyzed = 7` although the caller supplied no tickets. -/
def statedCountsGapReply : GapDetectionResult :=
  { gaps := []
    analysis_summary := "counts stated by the model"
    total_queries_analyzed := 11
    total_tickets_analyzed := 7
    coverage_score := 0 }

/-- A sample generated FAQ. -/
def sampleFAQ : GeneratedFAQ :=
  { question := "How do I reset my password?"
    answer := "Use the account portal."
    category := "accounts"
    confidence_score := 4/5
    source_summary := "tickets"
    related_questions := []
    tags := ["reset"] }

/-- A coverage reply whose stated percentage (99) disagrees with
`covered_topics / total_topics × 100` (50). -/
def inconsistentCoverageReply : CoverageAnalysis :=
  { total_topics := 4
    covered_topics := 2
    coverage_percentage := 99
    well_covered := ["auth"]
    partially_covered := []
    not_covered := ["billing"]
    recommendations := [] }

/-- A coverage reply with `total_topics = 0` and stated percentage 5. -/
def zeroTopicsReplyA : CoverageAnalysis :=
  { inconsistentCoverageReply with
    total_topics := 0, covered_topics := 0, coverage_percentage := 5 }

/-- A coverage reply with `total_topics = 0` and stated percentage 7. -/
def zeroTopicsReplyB : CoverageAnalysis :=
  { zeroTopicsReplyA with coverage_percentage := 7 }

/-- A sample completion service answering every prompt kind with fixed,
well-formed data (the content suggestion echoes the gap title, so distinct
gaps yield distinct suggestions). -/
def sampleOracles : Oracles :=
  { gap := fun _ =>
      { gaps := [sampleGap, sampleGapLow]
        analysis_summary := "two gaps"
        total_queries_analyzed := 3
        total_tickets_analyzed := 4
        coverage_score := 1/2 }
    coverage := fun _ => inconsistentCoverageReply
    faq := fun _ =>
      { faqs := [sampleFAQ]
        total_sources_analyzed := 12
        categories_covered := ["accounts"]
        generation_summary := "one faq" }
    suggest := fun v =>
      { title := "Guide: " ++ v.gap_title
        summary := "covers the gap"
        outline := ["intro"]
        priority := "high"
        target_audience := "users"
        estimated_effort := "low"
        seo_keywords := []
        related_content := [] } }

/-- A sample search query used to build long query lists. -/
def sampleQuery : SearchQuery := { query := "how to export data", count := none }

/-- 51 copies of the sample query. -/
def queries51 : List SearchQuery := List.replicate 51 sampleQuery

/-- 52 copies of the sample query: agrees with `queries51` on the first 50
elements but not beyond. -/
def queries52 : List SearchQuery := List.replicate 52 sampleQuery

/-- A service reply for the FAQ generator carrying no FAQs. -/
def emptyFaqReply : FAQGenerationResult :=
  { faqs := []
    total_sources_analyzed := 0
    categories_covered := []
    generation_summary := "" }

/-- A sample ticket record. -/
def sampleTicket : Ticket :=
  { subject := some "Cannot log in"
    description := some "The login page rejects my password"
    resolution := some "Reset via portal"
    category := some "accounts" }

/-! ### Helper lemmas -/

theorem intercalate_go_length_le (s : String) (l : List String) :
    ∀ acc : String, acc.length ≤ (String.intercalate.go acc s l).length := by
  induction l with
  | nil => intro acc; simp [String.intercalate.go]
  | cons a as ih =>
    intro acc
    simp only [String.intercalate.go]
    refine le_trans ?_ (ih (acc ++ s ++ a))
    simp only [String.length_append]
    omega

theorem intercalate_cons_ne_empty (s a : String) (l : List String)
    (ha : 0 < a.length) : String.intercalate s (a :: l) ≠ "" := by
  intro h
  have h1 : a.length ≤ (String.intercalate s (a :: l)).length :=
    intercalate_go_length_le s l a
  rw [h] at h1
  simp only [String.length_empty] at h1
  omega

theorem queryLine_length_pos (q : SearchQuery) : 0 < (queryLine q).length := by
  simp only [queryLine, String.length_append]
  have h : 0 < "- \"".length := by decide
  omega

/-! ### Claim theorems -/

/-- C1 (code bug): the parsed reply's score fields are never range-checked.
A completion-service reply stating `impact_score = 1.5` flows through
`detect` unchanged: the result containing the out-of-range score is
returned, and no validation error is possible since `detect` is total. -/
theorem C1_out_of_range_score_returned :
    ((detect (fun _ => outOfRangeGapReply) [] [] [] []).gaps.map
        (fun g => g.impact_score)) = [3/2] ∧
      ¬ ((3 : ℚ)/2 ≤ 1) := by
  constructor
  · rfl
  · norm_num

/-- C2 (code bug): `analyze_coverage` returns the parsed reply verbatim.
A reply stating `total_topics = 4`, `covered_topics = 2` but
`coverage_percentage = 99` is returned as-is although 2/4×100 = 50, and two
replies with `total_topics = 0` yield two different percentages, so the
zero-topic behaviour is model-dependent rather than a fixed value. -/
theorem C2_coverage_not_recomputed :
    ((analyze_coverage (fun _ => inconsistentCoverageReply) []
        ["auth"]).coverage_percentage = 99 ∧
      (analyze_coverage (fun _ => inconsistentCoverageReply) []
        ["auth"]).total_topics = 4 ∧
      (analyze_coverage (fun _ => inconsistentCoverageReply) []
        ["auth"]).covered_topics = 2 ∧
      (99 : ℚ) ≠ 2 / 4 * 100) ∧
    ((analyze_coverage (fun _ => zeroTopicsReplyA) [] []).total_topics = 0 ∧
      (analyze_coverage (fun _ => zeroTopicsReplyB) [] []).total_topics = 0 ∧
      (analyze_coverage (fun _ => zeroTopicsReplyA) []
          []).coverage_percentage ≠
        (analyze_coverage (fun _ => zeroTopicsReplyB) []
          []).coverage_percentage) := by
  refine ⟨⟨rfl, rfl, rfl, by norm_num⟩, rfl, rfl, ?_⟩
  show (5 : ℚ) ≠ 7
  norm_num

/-- C3 counterexample: `detect_from_searches` does not overwrite
`total_tickets_analyzed`; with no caller-supplied tickets (true length 0), a
reply stating 7 makes the returned count 7, not 0 as the claim requires. -/
theorem C3_counterexample :
    (detect_from_searches (fun _ => statedCountsGapReply)
        [{ query := "reset password", count := none }]
        []).total_tickets_analyzed = 7 ∧
      (7 : ℤ) ≠ 0 := by
  constructor
  · rfl
  · decide

/-- C3 amended: `detect` overwrites both `total_queries_analyzed` and
`total_tickets_analyzed` with the true lengths of the caller-supplied lists
(0 when absent) for every service reply; each single-source specialization
overwrites only its own source's count (`detect_from_searches` the query
count, `detect_from_tickets` the ticket count), leaving the other count as
the reply stated it. -/
theorem C3_counts_overwritten (oracle : GapPromptInput → GapDetectionResult)
    (search_queries : List SearchQuery) (support_tickets : List Ticket)
    (user_feedback : List Feedback) (existing_content : List String) :
    ((detect oracle search_queries support_tickets user_feedback
          existing_content).total_queries_analyzed =
        (search_queries.length : ℤ) ∧
      (detect oracle search_queries support_tickets user_feedback
          existing_content).total_tickets_analyzed =
        (support_tickets.length : ℤ)) ∧
    (∀ zero_result_queries existing_content₂,
      (detect_from_searches oracle zero_result_queries
          existing_content₂).total_queries_analyzed =
        (zero_result_queries.length : ℤ)) ∧
    (∀ support_tickets₂ existing_content₃,
      (detect_from_tickets oracle support_tickets₂
          existing_content₃).total_tickets_analyzed =
        (support_tickets₂.length : ℤ)) := by
  refine ⟨⟨?_, ?_⟩, fun _ _ => rfl, fun _ _ => rfl⟩
  · show (if search_queries = [] then 0
      else (search_queries.length : ℤ)) = search_queries.length
    split <;> simp_all
  · show (if support_tickets = [] then 0
      else (support_tickets.length : ℤ)) = support_tickets.length
    split <;> simp_all

/-- C4: `analyze_quality` force-sets `content_id` and `title` from the input
record (defaults `""` and `"Untitled"` for absent keys), for every service
reply. -/
theorem C4_quality_identity_from_input
    (oracle : QualityPromptInput → ContentQuality)
    (content : ContentRecord) :
    (analyze_quality oracle content).content_id = content.id.getD "" ∧
      (analyze_quality oracle content).title =
        content.title.getD "Untitled" :=
  ⟨rfl, rfl⟩

/-- C9: `generate` computes `total_sources_analyzed` locally as
ticket-count + query-count; the documentation list and the count stated in
the service reply have no influence. -/
theorem C9_faq_total_sources
    (oracle : FAQPromptInput → FAQGenerationResult) (tickets : List Ticket)
    (queries : List SearchQuery) (documentation : List ContentRecord) :
    (generate oracle tickets queries documentation).total_sources_analyzed =
      (tickets.length : ℤ) + (queries.length : ℤ) := by
  show (if tickets = [] then 0 else (tickets.length : ℤ)) +
      (if queries = [] then 0 else (queries.length : ℤ)) =
    (tickets.length : ℤ) + (queries.length : ℤ)
  split <;> split <;> simp_all

/-- C5: with more than 50 input queries, the shaped query text sent to the
completion service is built from exactly the first 50 queries in input
order, both in `detect` and in `detect_from_searches`; two inputs agreeing
on their first 50 elements produce identical prompt mappings, so elements
51 onward have zero influence. -/
theorem C5_prompt_first_50 (sq sq' : List SearchQuery) (ts : List Ticket)
    (fb : List Feedback) (ec ec' : List String) (h : 50 < sq.length)
    (h50 : sq.take 50 = sq'.take 50) :
    (gapDetectPromptInput sq ts fb ec).search_queries =
        String.intercalate "\n" ((sq.take 50).map queryLine) ∧
      gapDetectPromptInput sq ts fb ec = gapDetectPromptInput sq' ts fb ec ∧
      (gapFromSearchesPromptInput sq ec').search_queries =
        String.intercalate "\n" ((sq.take 50).map queryLine) ∧
      gapFromSearchesPromptInput sq ec' =
        gapFromSearchesPromptInput sq' ec' := by
  have hne : sq ≠ [] := by
    intro e
    rw [e] at h
    simp at h
  obtain ⟨a, t, htk⟩ : ∃ a t, sq.take 50 = a :: t := by
    cases hc : sq.take 50 with
    | nil =>
      have hlen : (sq.take 50).length = 0 := by rw [hc]; rfl
      rw [List.length_take] at hlen
      omega
    | cons a t => exact ⟨a, t, rfl⟩
  have hQne : String.intercalate "\n" ((sq.take 50).map queryLine) ≠ "" := by
    rw [htk, List.map_cons]
    exact intercalate_cons_ne_empty _ _ _ (queryLine_length_pos a)
  have hne' : sq' ≠ [] := by
    intro e
    rw [e] at h50
    simp at h50
    rw [h50] at htk
    exact List.noConfusion htk
  refine ⟨?_, ?_, ?_, ?_⟩
  · show orDefault (if sq = [] then "" else
      String.intercalate "\n" ((sq.take 50).map queryLine))
        "No search data available" = _
    rw [if_neg hne, orDefault, if_neg hQne]
  · simp only [gapDetectPromptInput]
    rw [if_neg hne, if_neg hne', h50]
  · show orDefault
      (String.intercalate "\n" ((sq.take 50).map queryLine))
        "No search data available" = _
    rw [orDefault, if_neg hQne]
  · simp only [gapFromSearchesPromptInput]
    rw [h50]

/-- C5 witness: `queries51` has more than 50 elements and agrees with
`queries52` on the first 50. -/
theorem C5_prompt_first_50_witness :
    50 < queries51.length ∧
      queries51.take 50 = queries52.take 50 ∧
      ((gapDetectPromptInput queries51 [] [] []).search_queries =
          String.intercalate "\n" ((queries51.take 50).map queryLine) ∧
        gapDetectPromptInput queries51 [] [] [] =
          gapDetectPromptInput queries52 [] [] [] ∧
        (gapFromSearchesPromptInput queries51 []).search_queries =
          String.intercalate "\n" ((queries51.take 50).map queryLine) ∧
        gapFromSearchesPromptInput queries51 [] =
          gapFromSearchesPromptInput queries52 []) :=
  ⟨by simp [queries51], by simp [queries51, queries52, List.take_replicate],
    C5_prompt_first_50 queries51 queries52 [] [] [] []
      (by simp [queries51])
      (by simp [queries51, queries52, List.take_replicate])⟩

theorem reportAfterStages_eq (O : Oracles) (sq : List SearchQuery)
    (st : List Ticket) (fb : List Feedback) (ec : List ContentRecord)
    (et : List String) (gf gs : Bool) :
    reportAfterStages O sq st fb ec et gf gs =
      { gaps_found := (detect O.gap sq st fb
          (ec.map fun c => c.title.getD "")).gaps.length
        faqs_generated := if gf ∧ st ≠ [] then
          (generate O.faq st sq ec).faqs.length else 0
        suggestions_created := if gs then
          (((detect O.gap sq st fb
              (ec.map fun c => c.title.getD "")).gaps.take 5).map fun gap =>
            suggest_content O.suggest gap.title gap.description
              ((ec.map fun c => c.title.getD "").take 10)).length else 0
        coverage_score := if et ≠ [] ∧ ec ≠ [] then
          (analyze_coverage O.coverage ec et).coverage_percentage else 0
        gaps := (detect O.gap sq st fb
          (ec.map fun c => c.title.getD "")).gaps
        faqs := if gf ∧ st ≠ [] then (generate O.faq st sq ec).faqs else []
        suggestions := if gs then
          ((detect O.gap sq st fb
              (ec.map fun c => c.title.getD "")).gaps.take 5).map fun gap =>
            suggest_content O.suggest gap.title gap.description
              ((ec.map fun c => c.title.getD "").take 10) else []
        summary := ""
        duration_seconds := 0 } := by
  by_cases h1 : et ≠ [] ∧ ec ≠ [] <;> by_cases h2 : (gf : Prop) ∧ st ≠ [] <;>
    by_cases h3 : gs = true <;>
    simp [reportAfterStages, AnalysisReport.init, h1, h2, h3]

theorem run_full_analysis_eq (O : Oracles) (sq : List SearchQuery)
    (st : List Ticket) (fb : List Feedback) (ec : List ContentRecord)
    (et : List String) (gf gs : Bool) (el : ℚ) :
    run_full_analysis O sq st fb ec et gf gs el =
      { reportAfterStages O sq st fb ec et gf gs with
        summary := generate_summary (reportAfterStages O sq st fb ec et gf gs)
          (detect O.gap sq st fb (ec.map fun c => c.title.getD ""))
        duration_seconds := el } := rfl

theorem summaryParts_head (r : AnalysisReport) :
    ∃ t, summaryParts r =
      ("Analysis completed in " ++ fmt1 r.duration_seconds ++ " seconds.") ::
        t := by
  simp only [summaryParts]
  split <;> split <;> split <;> split <;> exact ⟨_, rfl⟩

/-- C6: with `generate_suggestions` set, the report's suggestions are
`suggest_content` applied to exactly the first `min 5 gaps_found` gaps of
the detection result, in detection order (never re-sorted), the i-th
suggestion coming from the i-th gap. -/
theorem C6_suggestions_first_five (O : Oracles) (sq : List SearchQuery)
    (st : List Ticket) (fb : List Feedback) (ec : List ContentRecord)
    (et : List String) (gf gs : Bool) (el : ℚ) (h : gs = true) :
    (run_full_analysis O sq st fb ec et gf gs el).suggestions =
      ((detect O.gap sq st fb
          (ec.map fun c => c.title.getD "")).gaps.take 5).map
        (fun gap => suggest_content O.suggest gap.title gap.description
          ((ec.map fun c => c.title.getD "").take 10)) ∧
      (run_full_analysis O sq st fb ec et gf gs el).suggestions.length =
        min 5 (run_full_analysis O sq st fb ec et gf gs el).gaps.length := by
  subst h
  simp [run_full_analysis_eq, reportAfterStages_eq, List.length_take]

/-- C6 witness: a concrete run with the suggestions flag set. -/
theorem C6_suggestions_first_five_witness :
    (true = true) ∧
      ((run_full_analysis sampleOracles [] [] [] [] [] false true
            7).suggestions =
        ((detect sampleOracles.gap [] [] []
            (([] : List ContentRecord).map fun c =>
              c.title.getD "")).gaps.take 5).map
          (fun gap => suggest_content sampleOracles.suggest gap.title
            gap.description
            ((([] : List ContentRecord).map fun c =>
              c.title.getD "").take 10)) ∧
        (run_full_analysis sampleOracles [] [] [] [] [] false true
            7).suggestions.length =
          min 5 (run_full_analysis sampleOracles [] [] [] [] [] false true
            7).gaps.length) :=
  ⟨rfl, C6_suggestions_first_five sampleOracles [] [] [] [] [] false true 7
    rfl⟩

/-- C7: the coverage stage runs only when both `expected_topics` and
`existing_content` are non-empty, the FAQ stage only when `generate_faqs`
is set and `support_tickets` is non-empty; a skipped stage leaves its
report fields at their initial values (`coverage_score = 0`; `faqs = []`,
`faqs_generated = 0`) and the whole report is then independent of that
stage's completion-service behaviour, so no other field is affected. -/
theorem C7_conditional_stages (O : Oracles)
    (c : CoveragePromptInput → CoverageAnalysis)
    (f : FAQPromptInput → FAQGenerationResult) (sq : List SearchQuery)
    (st : List Ticket) (fb : List Feedback) (ec : List ContentRecord)
    (et : List String) (gf gs : Bool) (el : ℚ) :
    ((et = [] ∨ ec = []) →
      (run_full_analysis O sq st fb ec et gf gs el).coverage_score = 0 ∧
        run_full_analysis { O with coverage := c } sq st fb ec et gf gs el =
          run_full_analysis O sq st fb ec et gf gs el) ∧
    ((gf = false ∨ st = []) →
      (run_full_analysis O sq st fb ec et gf gs el).faqs = [] ∧
        (run_full_analysis O sq st fb ec et gf gs el).faqs_generated = 0 ∧
        run_full_analysis { O with faq := f } sq st fb ec et gf gs el =
          run_full_analysis O sq st fb ec et gf gs el) := by
  constructor
  · intro h1
    have hc : ¬(et ≠ [] ∧ ec ≠ []) := by rcases h1 with h | h <;> simp [h]
    constructor
    · simp [run_full_analysis_eq, reportAfterStages_eq, hc]
    · simp [run_full_analysis_eq, reportAfterStages_eq, hc,
        generate_summary]
  · intro h2
    have hc : ¬((gf : Prop) ∧ st ≠ []) := by
      rcases h2 with h | h <;> simp [h]
    refine ⟨?_, ?_, ?_⟩
    · simp [run_full_analysis_eq, reportAfterStages_eq, hc]
    · simp [run_full_analysis_eq, reportAfterStages_eq, hc]
    · simp [run_full_analysis_eq, reportAfterStages_eq, hc,
        generate_summary]

/-- C7 witness: a concrete run where both skip conditions hold. -/
theorem C7_conditional_stages_witness :
    (run_full_analysis sampleOracles [] [] [] [] [] true true
        7).coverage_score = 0 ∧
      run_full_analysis { sampleOracles with
          coverage := fun _ => zeroTopicsReplyA } [] [] [] [] [] true true
          7 =
        run_full_analysis sampleOracles [] [] [] [] [] true true 7 ∧
      (run_full_analysis sampleOracles [] [] [] [] [] true true 7).faqs =
        [] ∧
      (run_full_analysis sampleOracles [] [] [] [] [] true true
        7).faqs_generated = 0 ∧
      run_full_analysis { sampleOracles with
          faq := fun _ => emptyFaqReply } [] [] [] [] [] true true 7 =
        run_full_analysis sampleOracles [] [] [] [] [] true true 7 := by
  have h := C7_conditional_stages sampleOracles (fun _ => zeroTopicsReplyA)
    (fun _ => emptyFaqReply) [] [] [] [] [] true true 7
  have ha := h.1 (Or.inl rfl)
  have hb := h.2 (Or.inr rfl)
  exact ⟨ha.1, ha.2, hb.1, hb.2.1, hb.2.2⟩

/-- C8: every completed run satisfies `gaps_found = len gaps`,
`faqs_generated = len faqs` and `suggestions_created = len suggestions`,
for all inputs, flags and service replies. -/
theorem C8_count_invariants (O : Oracles) (sq : List SearchQuery)
    (st : List Ticket) (fb : List Feedback) (ec : List ContentRecord)
    (et : List String) (gf gs : Bool) (el : ℚ) :
    (run_full_analysis O sq st fb ec et gf gs el).gaps_found =
        (run_full_analysis O sq st fb ec et gf gs el).gaps.length ∧
      (run_full_analysis O sq st fb ec et gf gs el).faqs_generated =
        (run_full_analysis O sq st fb ec et gf gs el).faqs.length ∧
      (run_full_analysis O sq st fb ec et gf gs el).suggestions_created =
        (run_full_analysis O sq st fb ec et gf gs el).suggestions.length :=
  by
  refine ⟨?_, ?_, ?_⟩ <;>
    simp only [run_full_analysis_eq, reportAfterStages_eq] <;>
    split <;> simp

/-- C10: the summary is composed while `duration_seconds` still holds its
initial 0.0 — so its leading clause always reads
"Analysis completed in 0.0 seconds." and the summary is independent of the
elapsed time — while the returned report's `duration_seconds` field holds
the true elapsed value. -/
theorem C10_summary_uses_initial_duration (O : Oracles)
    (sq : List SearchQuery) (st : List Ticket) (fb : List Feedback)
    (ec : List ContentRecord) (et : List String) (gf gs : Bool) (el : ℚ) :
    (∃ rest, (run_full_analysis O sq st fb ec et gf gs el).summary =
        String.intercalate " "
          ("Analysis completed in 0.0 seconds." :: rest)) ∧
      (run_full_analysis O sq st fb ec et gf gs el).summary =
        (run_full_analysis O sq st fb ec et gf gs 0).summary ∧
      (run_full_analysis O sq st fb ec et gf gs el).duration_seconds =
        el := by
  refine ⟨?_, rfl, rfl⟩
  obtain ⟨t, ht⟩ := summaryParts_head (reportAfterStages O sq st fb ec et gf
    gs)
  have hd : (reportAfterStages O sq st fb ec et gf gs).duration_seconds =
      0 := by
    rw [reportAfterStages_eq]
  rw [hd] at ht
  have h0 : round ((0 : ℚ) * 10) = 0 := by norm_num
  have hstr : "Analysis completed in " ++ fmt1 0 ++ " seconds." =
      "Analysis completed in 0.0 seconds." := by
    simp only [fmt1, h0]
    decide
  rw [hstr] at ht
  refine ⟨t, ?_⟩
  show String.intercalate " "
    (summaryParts (reportAfterStages O sq st fb ec et gf gs)) = _
  rw [ht]

end KGA
